import Mathlib

/-!
Verification of the cw-axolotl CLI deployment layer.

The definitions below are a shallow embedding of the Python sources under
src/cw_cli: configuration documents are modelled as functions from string
keys to optional values, the kubectl side effects as explicit event traces,
and each deployment strategy as a pure function from the booleans that the
real code branches on (validation outcome, per-step apply outcome, flags)
to the DeploymentResult it returns plus the trace of cluster operations it
performed.
-/

/-- A scalar YAML value as it appears in a configuration document.
The repository reads configuration documents with yaml.safe_load; the claims
under verification only inspect scalar fields (the rl discriminator and the
gpu, cpu and memory sizing fields), so scalars suffice here. -/
inductive YValue where
  | vStr : String → YValue
  | vInt : Int → YValue
  | vBool : Bool → YValue
  | vNull : YValue
  deriving DecidableEq, Repr

/-- Python str() on the scalar values of YValue. -/
def pyStr : YValue → String
  | YValue.vStr s => s
  | YValue.vInt n => toString n
  | YValue.vBool b => if b then "True" else "False"
  | YValue.vNull => "None"

/-- A configuration document: an open key/value mapping (a Python dict). -/
def ConfigDoc (α : Type) : Type := String → Option α

/-- dict.pop(field, None): the dictionary with one key removed. -/
def dictPop {α : Type} (d : ConfigDoc α) (f : String) : ConfigDoc α :=
  fun k => if k = f then none else d k

/-- dict.get(key, default). -/
def dictGetD {α : Type} (d : ConfigDoc α) (k : String) (dflt : α) : α :=
  match d k with
  | some v => v
  | none => dflt

/-- The cluster_fields list of utils.create_configmap_yaml,
AxolotlFramework.prepare_config and
ConfigurationManager.prepare_for_deployment. -/
def cluster_fields : List String := ["image", "gpu", "cpu", "memory", "resources"]

/-- AxolotlFramework.prepare_config: copy the document and pop every
cluster placement field. -/
def prepare_config {α : Type} (d : ConfigDoc α) : ConfigDoc α :=
  cluster_fields.foldl dictPop d

/-- The data mapping embedded in the ConfigMap built by
utils.create_configmap_yaml: the document with the cluster placement
fields popped (the function performs the same stripping loop again on
whatever document it receives). -/
def create_configmap_data {α : Type} (d : ConfigDoc α) : ConfigDoc α :=
  cluster_fields.foldl dictPop d

/-- TrainingType of core/framework.py. -/
inductive TrainingType where
  | SFT
  | GRPO
  deriving DecidableEq, Repr

/-- AxolotlFramework.validate_config: for GRPO the document must carry
rl equal to the string grpo; for SFT everything validates. -/
def axolotl_validate_config (cfg : ConfigDoc YValue) (t : TrainingType) : Bool :=
  match t with
  | TrainingType.GRPO => decide (cfg "rl" = some (YValue.vStr "grpo"))
  | TrainingType.SFT => true

/-- DeploymentResult of core/framework.py. The services field keeps the
Python default None as Option.none. -/
structure DeploymentResult where
  success : Bool
  job_name : Option String := none
  services : Option (List String) := none
  error_message : Option String := none
  deriving DecidableEq, Repr

/-- The service_labels list of GRPODeploymentStrategy.deploy. -/
def service_labels : List String := ["VLLM Server", "Rewards Server", "Training Job"]

/-- The per-step display name: the label when the index is in range,
otherwise the fallback Service i+1 string. -/
def serviceName (i : Nat) : String :=
  match service_labels.get? i with
  | some l => l
  | none => "Service " ++ toString (i + 1)

/-- The deployment loop of GRPODeploymentStrategy.deploy, deploying the
steps i, i+1, ... while fuel counts the remaining templates. Returns the
indices whose apply was invoked, the names logged as deployed successfully
(the service_names accumulator), and the error message of the first failed
step if any. The loop stops at the first failure. -/
def deployFrom (applyOk : Nat → Bool) : Nat → Nat → List Nat × List String × Option String
  | 0, _ => ([], [], none)
  | fuel + 1, i =>
    if applyOk i then
      match deployFrom applyOk fuel (i + 1) with
      | (applied, names, err) => (i :: applied, serviceName i :: names, err)
    else
      ([i], [], some ("Failed to deploy " ++ serviceName i))

/-- The observable outcome of GRPODeploymentStrategy.deploy: the returned
DeploymentResult, whether the ConfigMap apply was invoked, the indices of
the template applies that were invoked, and the steps logged as deployed
successfully. -/
structure GRPOOutcome where
  result : DeploymentResult
  configmapApplied : Bool
  applied : List Nat
  deployedLog : List String
  deriving DecidableEq, Repr

/-- GRPODeploymentStrategy.deploy. validateOk is the outcome of
framework.validate_config, configmapOk the boolean outcome of the ConfigMap
apply, n the number of templates of the framework, applyOk the boolean
outcome of deploy_yaml_template for each template index. With services_only
the last template is dropped from the plan before the loop runs. -/
def grpoDeploy (validateOk servicesOnly configmapOk : Bool) (n : Nat)
    (applyOk : Nat → Bool) (jobName : String) : GRPOOutcome :=
  if !servicesOnly && !validateOk then
    { result := { success := false, error_message := some "Configuration validation failed" },
      configmapApplied := false, applied := [], deployedLog := [] }
  else if !configmapOk then
    { result := { success := false, error_message := some "Failed to create ConfigMap" },
      configmapApplied := true, applied := [], deployedLog := [] }
  else if n < 2 then
    { result := { success := false, error_message := some "GRPO requires multiple service templates" },
      configmapApplied := true, applied := [], deployedLog := [] }
  else
    match deployFrom applyOk (if servicesOnly then n - 1 else n) 0 with
    | (applied, names, some msg) =>
      { result := { success := false, error_message := some msg },
        configmapApplied := true, applied := applied, deployedLog := names }
    | (applied, names, none) =>
      if servicesOnly then
        { result := { success := true, services := some names },
          configmapApplied := true, applied := applied, deployedLog := names }
      else
        { result := { success := true, job_name := some jobName, services := some names },
          configmapApplied := true, applied := applied, deployedLog := names }

/-- A kubectl operation issued through run_kubectl_command. -/
inductive KubeOp where
  | applyConfigMap
  | applyJob
  | deleteConfigMap
  deriving DecidableEq, Repr

/-- The observable outcome of SFTDeploymentStrategy.deploy: the returned
DeploymentResult, the trace of kubectl operations invoked, and whether the
cleaning-up-ConfigMap message was printed. -/
structure SFTOutcome where
  result : DeploymentResult
  ops : List KubeOp
  printedCleanupMsg : Bool
  deriving DecidableEq, Repr

/-- SFTDeploymentStrategy.deploy. templateExists and renderOk expand the
body of deploy_yaml_template at the job template: the kubectl apply for the
job is reached only when the template file exists and render_template does
not throw; applyJobOk is the boolean outcome of that apply. The failure
branch prints the cleanup message but issues no delete (the cleanup is a
TODO in the source). -/
def sftDeploy (validateOk configmapOk templatesNonempty : Bool)
    (templateExists renderOk applyJobOk : Bool) (jobName : String) : SFTOutcome :=
  if !validateOk then
    { result := { success := false, error_message := some "Configuration validation failed" },
      ops := [], printedCleanupMsg := false }
  else if !configmapOk then
    { result := { success := false, error_message := some "Failed to create ConfigMap" },
      ops := [KubeOp.applyConfigMap], printedCleanupMsg := false }
  else if !templatesNonempty then
    { result := { success := false, error_message := some "No YAML templates found for SFT" },
      ops := [KubeOp.applyConfigMap], printedCleanupMsg := false }
  else
    let jobOps := if templateExists && renderOk then [KubeOp.applyJob] else []
    if templateExists && renderOk && applyJobOk then
      { result := { success := true, job_name := some jobName },
        ops := KubeOp.applyConfigMap :: jobOps, printedCleanupMsg := false }
    else
      { result := { success := false, error_message := some "Failed to create Job" },
        ops := KubeOp.applyConfigMap :: jobOps, printedCleanupMsg := true }

/-- The error kinds named by the specification for the manifest builder
(section 4.2 and the taxonomy of section 7). They exist here only to state
what the deploy path would have to raise; core/exceptions.py defines a
TemplateError and a ResourceError, and the deploy path raises neither. -/
inductive DeployError where
  | templateNotFound
  | resourceValidation
  | clusterCommand
  deriving DecidableEq, Repr

/-- The outcome of a Python call: a returned value or a raised error. -/
inductive PyResult (α : Type) where
  | ret : α → PyResult α
  | exn : DeployError → PyResult α
  deriving DecidableEq, Repr

/-- BaseDeploymentStrategy.deploy_yaml_template. A missing template file
returns False after printing an error; render_template runs inside a try
block whose except clause converts any raised error into False; the kubectl
apply itself catches its CalledProcessError and returns a boolean. The
codomain keeps the raised-error alternative so that the absence of raising
is a statement, not a typing accident. -/
def deploy_yaml_template (templateExists : Bool) (render : PyResult String)
    (applyOk : String → Bool) : PyResult Bool :=
  if !templateExists then
    PyResult.ret false
  else
    match render with
    | PyResult.exn _ => PyResult.ret false
    | PyResult.ret y => PyResult.ret (applyOk y)

/-- Association-list lookup, the dict.get of a string-to-string mapping. -/
def lookupKV : List (String × String) → String → Option String
  | [], _ => none
  | (k, v) :: rest, key => if k = key then some v else lookupKV rest key

/-- A Kubernetes resource block: the two tiers, each present or absent as a
key of the resources dict. -/
structure ResourcesDict where
  limits : Option (List (String × String))
  requests : Option (List (String × String))
  deriving DecidableEq, Repr

/-- Python truthiness of a string: the empty string is falsy. -/
def pyTruthyStr (s : String) : Bool := !(s == "")

/-- Python truthiness of dict.get: None and the empty string are falsy. -/
def pyTruthyOptStr : Option String → Bool
  | none => false
  | some s => pyTruthyStr s

/-- The numeric value of a decimal digit character, none otherwise. -/
def charDigit? (c : Char) : Option Nat :=
  if c.isDigit then some (c.toNat - 48) else none

/-- Accumulate a decimal digit string into a number; none on a non-digit. -/
def digitsVal? : List Char → Nat → Option Nat
  | [], acc => some acc
  | c :: cs, acc =>
    match charDigit? c with
    | some d => digitsVal? cs (acc * 10 + d)
    | none => none

/-- The characters with surrounding whitespace stripped, as Python int
conversion strips its argument. -/
def trimChars (cs : List Char) : List Char :=
  ((cs.dropWhile Char.isWhitespace).reverse.dropWhile Char.isWhitespace).reverse

/-- Python int(s) on a string: surrounding whitespace stripped, an optional
sign, then a nonempty run of decimal digits; none models the ValueError. -/
def pyInt? (s : String) : Option Int :=
  match trimChars s.toList with
  | [] => none
  | '+' :: rest =>
    if rest = [] then none else (digitsVal? rest 0).map Int.ofNat
  | '-' :: rest =>
    if rest = [] then none else (digitsVal? rest 0).map (fun n => -(n : Int))
  | cs => (digitsVal? cs 0).map Int.ofNat

/-- ResourceManager.validate_resources. The block must carry at least one of
the two tiers; when both tiers carry a truthy accelerator quantity the two
must convert to equal ints, a failed conversion failing validation. -/
def validate_resources (r : ResourcesDict) : Bool :=
  if r.limits.isNone && r.requests.isNone then
    false
  else
    let limits := r.limits.getD []
    let requests := r.requests.getD []
    let gpu_limits := lookupKV limits "nvidia.com/gpu"
    let gpu_requests := lookupKV requests "nvidia.com/gpu"
    if pyTruthyOptStr gpu_limits && pyTruthyOptStr gpu_requests then
      match pyInt? (gpu_limits.getD ""), pyInt? (gpu_requests.getD "") with
      | some a, some b => a == b
      | _, _ => false
    else
      true

/-- The resources block built by utils.update_grpo_yaml_with_resources:
full-node standard values unless the configuration overrides them, the gpu
count defaulting to the integer 8, and both tiers built from the same
expressions. -/
def update_grpo_yaml_resources (cfg : ConfigDoc YValue) : ResourcesDict :=
  { limits := some [("nvidia.com/gpu", pyStr (dictGetD cfg "gpu" (YValue.vInt 8))),
                    ("cpu", pyStr (dictGetD cfg "cpu" (YValue.vStr "32"))),
                    ("memory", pyStr (dictGetD cfg "memory" (YValue.vStr "1000Gi")))],
    requests := some [("nvidia.com/gpu", pyStr (dictGetD cfg "gpu" (YValue.vInt 8))),
                      ("cpu", pyStr (dictGetD cfg "cpu" (YValue.vStr "32"))),
                      ("memory", pyStr (dictGetD cfg "memory" (YValue.vStr "1000Gi")))] }

/-- The observable outcome of status.handle_status_output: the returned exit
code, whether the two raw state documents were printed, and whether the
watch refresh loop was entered. -/
structure StatusOutcome where
  exitCode : Nat
  printedRawDocs : Bool
  enteredWatchLoop : Bool
  deriving DecidableEq, Repr

/-- status.handle_status_output. jobFound is the truthiness of the fetched
job document; loopExitCode stands for whatever exit code the watch loop
eventually returns (interrupt or job disappearance), reached only on the
branch that enters the loop. -/
def handle_status_output (jobFound watch : Bool) (output : String)
    (loopExitCode : Nat) : StatusOutcome :=
  if !jobFound then
    { exitCode := 1, printedRawDocs := false, enteredWatchLoop := false }
  else if output == "yaml" || output == "json" then
    { exitCode := 0, printedRawDocs := true, enteredWatchLoop := false }
  else if watch then
    { exitCode := loopExitCode, printedRawDocs := false, enteredWatchLoop := true }
  else
    { exitCode := 0, printedRawDocs := false, enteredWatchLoop := false }

/-! ## Lemmas about the embedded operations -/

theorem foldl_dictPop_apply {α : Type} :
    ∀ (fs : List String) (d : ConfigDoc α) (k : String),
      List.foldl dictPop d fs k = if k ∈ fs then none else d k
  | [], d, k => by simp
  | f :: fs, d, k => by
    rw [List.foldl_cons, foldl_dictPop_apply fs (dictPop d f) k]
    by_cases hk : k ∈ fs
    · simp [hk]
    · by_cases hf : k = f
      · simp [hk, hf, dictPop]
      · simp [hk, hf, dictPop]

theorem deployFrom_applied_lt (applyOk : Nat → Bool) :
    ∀ (fuel i x : Nat), x ∈ (deployFrom applyOk fuel i).1 → x < i + fuel
  | 0, i, x, h => by simp [deployFrom] at h
  | fuel + 1, i, x, h => by
    rw [deployFrom] at h
    by_cases ha : applyOk i
    · rw [if_pos ha] at h
      rcases hd : deployFrom applyOk fuel (i + 1) with ⟨applied, names, err⟩
      rw [hd] at h
      simp only [List.mem_cons] at h
      rcases h with h | h
      · omega
      · have := deployFrom_applied_lt applyOk fuel (i + 1) x (by rw [hd]; exact h)
        omega
    · rw [if_neg ha] at h
      simp only [List.mem_singleton] at h
      omega

theorem deployFrom_first_failure (applyOk : Nat → Bool) :
    ∀ (c fuel i : Nat), c < fuel →
      (∀ j, j < c → applyOk (i + j) = true) →
      applyOk (i + c) = false →
      deployFrom applyOk fuel i =
        (List.range' i (c + 1), (List.range' i c).map serviceName,
          some ("Failed to deploy " ++ serviceName (i + c)))
  | 0, fuel, i, hc, _, hfail => by
    obtain ⟨f, rfl⟩ : ∃ f, fuel = f + 1 := ⟨fuel - 1, by omega⟩
    rw [deployFrom, if_neg (by simpa using hfail)]
    simp
  | c + 1, fuel, i, hc, hpre, hfail => by
    obtain ⟨f, rfl⟩ : ∃ f, fuel = f + 1 := ⟨fuel - 1, by omega⟩
    have h0 : applyOk i = true := by simpa using hpre 0 (Nat.succ_pos c)
    rw [deployFrom, if_pos h0,
      deployFrom_first_failure applyOk c f (i + 1) (by omega)
        (fun j hj => by
          have := hpre (j + 1) (by omega)
          simpa [Nat.add_assoc, Nat.add_comm 1 j] using this)
        (by
          have : i + 1 + c = i + (c + 1) := by omega
          rw [this]; exact hfail)]
    have hic : i + 1 + c = i + (c + 1) := by omega
    simp [List.range'_succ, hic]

theorem deployFrom_all_ok (applyOk : Nat → Bool) (hall : ∀ i, applyOk i = true) :
    ∀ (fuel i : Nat),
      deployFrom applyOk fuel i =
        (List.range' i fuel, (List.range' i fuel).map serviceName, none)
  | 0, i => by simp [deployFrom]
  | fuel + 1, i => by
    rw [deployFrom, if_pos (hall i), deployFrom_all_ok applyOk hall fuel (i + 1)]
    simp [List.range'_succ]

/-! ## Claim theorems -/

/-- Claim C2: for every configuration document, the generated config
artifact (built by create_configmap_yaml from the document that
prepare_config already cleaned) contains none of the five cluster placement
keys, and every other key keeps its original value. -/
theorem configmap_artifact_strips_cluster_fields {α : Type} (d : ConfigDoc α) (k : String) :
    (k ∈ cluster_fields → create_configmap_data (prepare_config d) k = none) ∧
    (k ∉ cluster_fields → create_configmap_data (prepare_config d) k = d k) := by
  unfold create_configmap_data prepare_config
  rw [foldl_dictPop_apply, foldl_dictPop_apply]
  constructor
  · intro h
    simp [h]
  · intro h
    simp [h]

/-- Witness for C2 at a concrete document: the gpu key is stripped from the
artifact and the base_model key keeps its value. -/
theorem configmap_artifact_strips_cluster_fields_witness :
    create_configmap_data (prepare_config (fun k =>
      if k = "gpu" then some "8" else if k = "base_model" then some "llama" else none)) "gpu"
        = none ∧
    create_configmap_data (prepare_config (fun k =>
      if k = "gpu" then some "8" else if k = "base_model" then some "llama" else none)) "base_model"
        = some "llama" :=
  ⟨(configmap_artifact_strips_cluster_fields
      (fun k => if k = "gpu" then some "8" else if k = "base_model" then some "llama" else none)
      "gpu").1 (by decide),
   (configmap_artifact_strips_cluster_fields
      (fun k => if k = "gpu" then some "8" else if k = "base_model" then some "llama" else none)
      "base_model").2 (by decide)⟩

/-- Claim C3: with services_only set, the training job template (index n-1,
the last of the ordered plan) is never applied, whatever the configuration
(validation outcome), the ConfigMap outcome and the per-step apply outcomes
are. -/
theorem grpo_services_only_never_applies_training (v c : Bool) (n : Nat)
    (applyOk : Nat → Bool) (j : String) :
    decide ((n - 1) ∈ (grpoDeploy v true c n applyOk j).applied) = false := by
  rw [decide_eq_false_iff_not]
  intro hmem
  cases c with
  | false => simp [grpoDeploy] at hmem
  | true =>
    by_cases hn : n < 2
    · simp [grpoDeploy, hn] at hmem
    · rcases hd : deployFrom applyOk (n - 1) 0 with ⟨a, names, err⟩
      have hmem2 : (n - 1) ∈ a := by
        cases err with
        | none => simpa [grpoDeploy, hn, hd] using hmem
        | some msg => simpa [grpoDeploy, hn, hd] using hmem
      have hlt := deployFrom_applied_lt applyOk (n - 1) 0 (n - 1) (by rw [hd]; exact hmem2)
      omega

/-- Claim C4: when the axolotl GRPO validation predicate rejects the
document (the rl key absent or not the string grpo), a deployment that is
not services-only returns the failed validation result with no ConfigMap
apply and no template apply. -/
theorem grpo_validation_failure_no_mutation (cfg : ConfigDoc YValue) (c : Bool) (n : Nat)
    (applyOk : Nat → Bool) (j : String)
    (h : cfg "rl" ≠ some (YValue.vStr "grpo")) :
    grpoDeploy (axolotl_validate_config cfg TrainingType.GRPO) false c n applyOk j =
      { result := { success := false, error_message := some "Configuration validation failed" },
        configmapApplied := false, applied := [], deployedLog := [] } := by
  have hv : axolotl_validate_config cfg TrainingType.GRPO = false := by
    simp only [axolotl_validate_config]
    exact decide_eq_false h
  simp [grpoDeploy, hv]

/-- Witness for C4 at a concrete document with no rl key: the deployment
short-circuits with zero side effects. -/
theorem grpo_validation_failure_no_mutation_witness :
    grpoDeploy (axolotl_validate_config (fun _ => none) TrainingType.GRPO) false true 3
        (fun _ => true) "cw-axolotl-train-grpo" =
      { result := { success := false, error_message := some "Configuration validation failed" },
        configmapApplied := false, applied := [], deployedLog := [] } :=
  grpo_validation_failure_no_mutation (fun _ => none) true 3 (fun _ => true)
    "cw-axolotl-train-grpo" (by decide)

/-- Claim C1 (amended): if step k (1-indexed, k between 1 and n) is the
first template apply to fail in a full GRPO deployment, the orchestrator
halts at once: the result has success false, its message names step k,
apply was invoked exactly for steps 1..k (so never for any later step),
the per-step success log names exactly steps 1..k-1, and the services
field of the failed result is left at its None default rather than
listing steps 1..k-1. -/
theorem grpo_first_failure_halts (n k : Nat) (applyOk : Nat → Bool) (j : String)
    (hn : 2 ≤ n) (hk1 : 1 ≤ k) (hk2 : k ≤ n)
    (hpre : ∀ i, i < k - 1 → applyOk i = true)
    (hfail : applyOk (k - 1) = false) :
    (grpoDeploy true false true n applyOk j).result.success = false ∧
    (grpoDeploy true false true n applyOk j).result.error_message =
      some ("Failed to deploy " ++ serviceName (k - 1)) ∧
    (grpoDeploy true false true n applyOk j).result.services = none ∧
    (grpoDeploy true false true n applyOk j).applied = List.range k ∧
    (grpoDeploy true false true n applyOk j).deployedLog =
      (List.range (k - 1)).map serviceName := by
  have hd := deployFrom_first_failure applyOk (k - 1) n 0 (by omega)
    (fun i hi => by simpa using hpre i hi)
    (by simpa using hfail)
  simp only [Nat.zero_add] at hd
  have hk : k - 1 + 1 = k := by omega
  rw [hk] at hd
  simp [grpoDeploy, show ¬ (n < 2) from by omega, hd, List.range_eq_range']

/-- Witness for C1 (amended) at n = 3 steps with step 2 made to fail. -/
theorem grpo_first_failure_halts_witness :
    (grpoDeploy true false true 3 (fun i => decide (i = 0))
        "cw-axolotl-train-grpo").result.success = false ∧
    (grpoDeploy true false true 3 (fun i => decide (i = 0))
        "cw-axolotl-train-grpo").result.error_message =
      some ("Failed to deploy " ++ serviceName 1) ∧
    (grpoDeploy true false true 3 (fun i => decide (i = 0))
        "cw-axolotl-train-grpo").result.services = none ∧
    (grpoDeploy true false true 3 (fun i => decide (i = 0))
        "cw-axolotl-train-grpo").applied = List.range 2 ∧
    (grpoDeploy true false true 3 (fun i => decide (i = 0))
        "cw-axolotl-train-grpo").deployedLog = (List.range 1).map serviceName :=
  grpo_first_failure_halts 3 2 (fun i => decide (i = 0)) "cw-axolotl-train-grpo"
    (by decide) (by decide) (by decide) (by decide) (by decide)

/-- Counterexample to C1 as stated: with 3 templates and step 2 the first
failure, the failed DeploymentResult does not report step 1 (the VLLM
Server) as successfully deployed: its services field is None, not the list
of steps 1..k-1. The successes are only logged, not returned. -/
theorem grpo_failure_result_services_cex :
    (grpoDeploy true false true 3 (fun i => decide (i = 0))
        "cw-axolotl-train-grpo").result.services = none ∧
    decide ((grpoDeploy true false true 3 (fun i => decide (i = 0))
        "cw-axolotl-train-grpo").result.services = some [serviceName 0]) = false := by
  decide

/-- A string whose Python int conversion succeeds is nonempty, hence truthy. -/
theorem pyInt?_truthy {s : String} {z : Int} (h : pyInt? s = some z) : pyTruthyStr s = true := by
  have hs : s ≠ "" := by
    intro he
    subst he
    have h0 : pyInt? "" = none := rfl
    rw [h0] at h
    exact Option.noConfusion h
  simp [pyTruthyStr, hs]

/-- Claim C5: the resources block of GRPO full-node manifests takes the gpu
quantity from the configuration when present (as its str conversion) and
the hard default 8 when absent, and the limit tier and the request tier
always carry the same gpu quantity. -/
theorem update_grpo_resources_gpu_policy (cfg : ConfigDoc YValue) :
    (cfg "gpu" = none →
      lookupKV ((update_grpo_yaml_resources cfg).limits.getD []) "nvidia.com/gpu" = some "8" ∧
      lookupKV ((update_grpo_yaml_resources cfg).requests.getD []) "nvidia.com/gpu" = some "8") ∧
    (∀ v, cfg "gpu" = some v →
      lookupKV ((update_grpo_yaml_resources cfg).limits.getD []) "nvidia.com/gpu"
        = some (pyStr v) ∧
      lookupKV ((update_grpo_yaml_resources cfg).requests.getD []) "nvidia.com/gpu"
        = some (pyStr v)) ∧
    lookupKV ((update_grpo_yaml_resources cfg).limits.getD []) "nvidia.com/gpu" =
      lookupKV ((update_grpo_yaml_resources cfg).requests.getD []) "nvidia.com/gpu" := by
  refine ⟨?_, ?_, ?_⟩
  · intro h
    constructor <;> simp [update_grpo_yaml_resources, lookupKV, dictGetD, h, pyStr] <;> decide
  · intro v hv
    constructor <;> simp [update_grpo_yaml_resources, lookupKV, dictGetD, hv]
  · rfl

/-- Witness for C5: default 8 on a document with no gpu key, and the str of
the configured count on a document with gpu set to 4. -/
theorem update_grpo_resources_gpu_policy_witness :
    (lookupKV ((update_grpo_yaml_resources (fun _ => none)).limits.getD [])
        "nvidia.com/gpu" = some "8" ∧
     lookupKV ((update_grpo_yaml_resources (fun _ => none)).requests.getD [])
        "nvidia.com/gpu" = some "8") ∧
    (lookupKV ((update_grpo_yaml_resources
        (fun k => if k = "gpu" then some (YValue.vInt 4) else none)).limits.getD [])
        "nvidia.com/gpu" = some (pyStr (YValue.vInt 4)) ∧
     lookupKV ((update_grpo_yaml_resources
        (fun k => if k = "gpu" then some (YValue.vInt 4) else none)).requests.getD [])
        "nvidia.com/gpu" = some (pyStr (YValue.vInt 4))) :=
  ⟨(update_grpo_resources_gpu_policy (fun _ => none)).1 rfl,
   (update_grpo_resources_gpu_policy
      (fun k => if k = "gpu" then some (YValue.vInt 4) else none)).2.1
      (YValue.vInt 4) (by decide)⟩

/-- Claim C6 (amended): a missing template file makes deploy_yaml_template
return the boolean False, and an error raised during template processing is
caught and likewise converted to False; the TemplateNotFoundError and
ResourceValidationError of the specification are never raised on this
path. -/
theorem deploy_yaml_template_boolean_failure (render : PyResult String)
    (applyOk : String → Bool) (e : DeployError) :
    deploy_yaml_template false render applyOk = PyResult.ret false ∧
    deploy_yaml_template true (PyResult.exn e) applyOk = PyResult.ret false :=
  ⟨rfl, rfl⟩

/-- Counterexample to C6 as stated: at a concrete nonexistent template path
the builder does not fail with the named template error; it returns the
boolean False. -/
theorem deploy_yaml_template_no_named_error_cex :
    decide (deploy_yaml_template false (PyResult.ret "apiVersion: v1") (fun _ => true) =
      PyResult.exn DeployError.templateNotFound) = false := by
  decide

/-- Claim C7: resource validation accepts every block whose accelerator
quantities in the two tiers convert to equal ints, and rejects every block
in which both tiers carry accelerator quantities converting to different
ints. -/
theorem validate_resources_gpu_tiers :
    (∀ (ls rs : List (String × String)) (a b : String) (z : Int),
      lookupKV ls "nvidia.com/gpu" = some a →
      lookupKV rs "nvidia.com/gpu" = some b →
      pyInt? a = some z → pyInt? b = some z →
      validate_resources { limits := some ls, requests := some rs } = true) ∧
    (∀ (ls rs : List (String × String)) (a b : String) (x y : Int),
      lookupKV ls "nvidia.com/gpu" = some a →
      lookupKV rs "nvidia.com/gpu" = some b →
      pyInt? a = some x → pyInt? b = some y → x ≠ y →
      validate_resources { limits := some ls, requests := some rs } = false) := by
  constructor
  · intro ls rs a b z hla hlb hpa hpb
    have hta := pyInt?_truthy hpa
    have htb := pyInt?_truthy hpb
    simp [validate_resources, hla, hlb, pyTruthyOptStr, hta, htb, hpa, hpb]
  · intro ls rs a b x y hla hlb hpa hpb hxy
    have hta := pyInt?_truthy hpa
    have htb := pyInt?_truthy hpb
    simp [validate_resources, hla, hlb, pyTruthyOptStr, hta, htb, hpa, hpb, hxy]

/-- Witness for C7: equal tiers of 8 accelerators validate; tiers of 4
against 8 fail validation. -/
theorem validate_resources_gpu_tiers_witness :
    validate_resources { limits := some [("nvidia.com/gpu", "8")],
                         requests := some [("nvidia.com/gpu", "8")] } = true ∧
    validate_resources { limits := some [("nvidia.com/gpu", "4")],
                         requests := some [("nvidia.com/gpu", "8")] } = false :=
  ⟨validate_resources_gpu_tiers.1 [("nvidia.com/gpu", "8")] [("nvidia.com/gpu", "8")]
      "8" "8" 8 (by decide) (by decide) (by decide) (by decide),
   validate_resources_gpu_tiers.2 [("nvidia.com/gpu", "4")] [("nvidia.com/gpu", "8")]
      "4" "8" 4 8 (by decide) (by decide) (by decide) (by decide) (by decide)⟩

/-- Claim C8: with a machine-readable output format the status command
prints the two raw state documents and returns exit code 0 without entering
the refresh loop, whatever the watch flag says. -/
theorem status_machine_readable_no_loop (watch : Bool) (output : String) (loopExit : Nat)
    (h : output = "yaml" ∨ output = "json") :
    handle_status_output true watch output loopExit =
      { exitCode := 0, printedRawDocs := true, enteredWatchLoop := false } := by
  rcases h with h | h <;> subst h <;> rfl

/-- Witness for C8: yaml output with the watch flag set still returns at
once with the documents printed and no loop entered. -/
theorem status_machine_readable_no_loop_witness :
    handle_status_output true true "yaml" 7 =
      { exitCode := 0, printedRawDocs := true, enteredWatchLoop := false } :=
  status_machine_readable_no_loop true "yaml" 7 (Or.inl rfl)

/-- Claim C9: a services-only GRPO deployment never consults the validation
predicate: its outcome is the same function of the other inputs whatever the
predicate would say, the ConfigMap apply is always invoked, and with a
succeeding ConfigMap apply and succeeding per-step applies the services are
all deployed even under a failing predicate. -/
theorem grpo_services_only_skips_validation (v c : Bool) (n : Nat)
    (applyOk : Nat → Bool) (j : String) :
    grpoDeploy v true c n applyOk j = grpoDeploy true true c n applyOk j ∧
    (grpoDeploy v true c n applyOk j).configmapApplied = true ∧
    (2 ≤ n → (∀ i, applyOk i = true) →
      (grpoDeploy v true true n applyOk j).result.success = true ∧
      (grpoDeploy v true true n applyOk j).applied = List.range (n - 1)) := by
  refine ⟨?_, ?_, ?_⟩
  · cases v <;> rfl
  · cases c with
    | false => cases v <;> rfl
    | true =>
      by_cases hn : n < 2
      · cases v <;> simp [grpoDeploy, hn]
      · rcases hd : deployFrom applyOk (n - 1) 0 with ⟨a, names, err⟩
        cases err <;> cases v <;> simp [grpoDeploy, hn, hd]
  · intro hn hall
    have hd := deployFrom_all_ok applyOk hall (n - 1) 0
    constructor <;>
      simp [grpoDeploy, show ¬ (n < 2) from by omega, hd, List.range_eq_range']

/-- Witness for C9: a document failing validation still deploys both
services in services-only mode. -/
theorem grpo_services_only_skips_validation_witness :
    (grpoDeploy false true true 3 (fun _ => true)
        "cw-axolotl-train-grpo").result.success = true ∧
    (grpoDeploy false true true 3 (fun _ => true)
        "cw-axolotl-train-grpo").applied = List.range 2 :=
  (grpo_services_only_skips_validation false true 3 (fun _ => true)
      "cw-axolotl-train-grpo").2.2 (by decide) (fun _ => rfl)

/-- Claim C10: in an SFT deployment where the ConfigMap apply succeeds and
the job apply then fails, the result reports only the job creation failure,
the cleanup message is printed, the trace of kubectl operations is exactly
the two applies, and in particular no delete of the ConfigMap is ever
issued. -/
theorem sft_job_failure_leaves_configmap (j : String) :
    sftDeploy true true true true true false j =
      { result := { success := false, error_message := some "Failed to create Job" },
        ops := [KubeOp.applyConfigMap, KubeOp.applyJob], printedCleanupMsg := true } ∧
    (sftDeploy true true true true true false j).ops.contains KubeOp.deleteConfigMap = false := by
  constructor <;> rfl
